import Mathlib

/-!
Shallow embedding of the telemetry core of the f1-minimal-telemetry
repository: the coordinate normalizer and path smoother of
src/scripts/openf1_service.py and the background ingestion loop and
incremental reader of src/scripts/bridge_server.py.

Coordinates and viewport dimensions are embedded as rationals; comparisons
of Euclidean distances (Python `math.hypot(dx, dy) > c` with positive
constant `c`) are embedded as the equivalent exact comparison of squares
`dx*dx + dy*dy > c*c`, since the square root itself is irrational.
-/

namespace F1

/-- A raw location sample as the upstream location endpoint returns it:
either coordinate may be null (`l['x'] is None` in the source). -/
structure Loc where
  x : Option ℚ
  y : Option ℚ
deriving Repr, DecidableEq

/-- The per-session bounds dict built by
`OpenF1Service.calculate_session_bounds` (openf1_service.py lines 99-103). -/
structure Bounds where
  min_x : ℚ
  max_x : ℚ
  min_y : ℚ
  max_y : ℚ
  scale : ℚ
  ox : ℚ
  oy : ℚ
deriving Repr, DecidableEq

/-- Constructor configuration of `OpenF1Service.__init__`:
`norm_width=1000, norm_height=700, padding=50`. -/
structure ServiceCfg where
  norm_width : ℚ
  norm_height : ℚ
  padding : ℚ
deriving Repr, DecidableEq

/-- The default service configuration. -/
def defaultCfg : ServiceCfg := ⟨1000, 700, 50⟩

/-- Python `min(xs)`; callers guard non-emptiness, the value at `[]` is
never used. -/
def pyMin : List ℚ → ℚ
  | [] => 0
  | x :: xs => xs.foldl min x

/-- Python `max(xs)`; callers guard non-emptiness. -/
def pyMax : List ℚ → ℚ
  | [] => 0
  | x :: xs => xs.foldl max x

/-- `if xr == 0: xr = 1` (openf1_service.py lines 92-93): a degenerate
axis range is replaced by a nominal span of 1. -/
def clampRange (r : ℚ) : ℚ := if r = 0 then 1 else r

/-- The bounds computation of `calculate_session_bounds`, lines 89-103:
min/max per axis, degenerate ranges clamped, scale as the minimum of the
two padded-viewport ratios, offsets centering the scaled box. -/
def mkBounds (cfg : ServiceCfg) (xs ys : List ℚ) : Bounds :=
  let min_x := pyMin xs
  let max_x := pyMax xs
  let min_y := pyMin ys
  let max_y := pyMax ys
  let xr := clampRange (max_x - min_x)
  let yr := clampRange (max_y - min_y)
  let scale := min ((cfg.norm_width - 2 * cfg.padding) / xr)
    ((cfg.norm_height - 2 * cfg.padding) / yr)
  { min_x := min_x, max_x := max_x, min_y := min_y, max_y := max_y,
    scale := scale,
    ox := (cfg.norm_width - xr * scale) / 2,
    oy := (cfg.norm_height - yr * scale) / 2 }

/-- The pure part of `calculate_session_bounds` over an already-fetched
location list (lines 80-104): `None` when no locations at all or when
either filtered coordinate list is empty, otherwise the bounds record.
Note the source filters the two coordinates independently
(`[l['x'] for l in locations if l['x'] is not None]` and likewise for y). -/
def boundsFromLocations (cfg : ServiceCfg) (locations : List Loc) : Option Bounds :=
  if locations.isEmpty then none
  else
    if (locations.filterMap (·.x)).isEmpty ∨ (locations.filterMap (·.y)).isEmpty then none
    else some (mkBounds cfg (locations.filterMap (·.x)) (locations.filterMap (·.y)))

/-- The environment `calculate_session_bounds` reads through the network:
the session's driver list, the session info (its `date_start` string) and
the location sample fetched for the bounds window (empty when the request
failed, lines 67-78). -/
structure BoundsEnv where
  drivers : List ℕ
  session_info : Option String
  locations : List Loc
deriving Repr, DecidableEq

/-- `calculate_session_bounds` (lines 44-104): cached value if present,
`None` when there are no drivers or no session info, else the bounds from
the fetched location sample. -/
def calculate_session_bounds (cfg : ServiceCfg) (cache : Option Bounds)
    (env : BoundsEnv) : Option Bounds :=
  match cache with
  | some b => some b
  | none =>
    if env.drivers.isEmpty then none
    else
      match env.session_info with
      | none => none
      | some _ => boundsFromLocations cfg env.locations

/-- The affine transform applied by `normalize_point` once bounds exist
(lines 120-121). -/
def normalizeXY (b : Bounds) (x y : ℚ) : ℚ × ℚ :=
  ((x - b.min_x) * b.scale + b.ox, (y - b.min_y) * b.scale + b.oy)

/-- `normalize_point` (lines 114-122): look up the cached bounds, compute
them if absent, and if they still cannot be computed return the inputs
unchanged. -/
def normalize_point (cfg : ServiceCfg) (cache : Option Bounds) (env : BoundsEnv)
    (x y : ℚ) : ℚ × ℚ :=
  match calculate_session_bounds cfg cache env with
  | none => (x, y)
  | some b => normalizeXY b x y

/-! ### PathSmoother: the smoothing stage of `provision_session`
(openf1_service.py lines 157-232). -/

/-- A raw geo point of the provisioning sample (`p['x']`, `p['y']`). -/
structure Pt where
  x : ℚ
  y : ℚ
deriving Repr, DecidableEq

/-- A `points_data` entry (line 183): normalized coordinates plus the gap
flag.  The running `dist` total accumulated there is display metadata (a
sum of square roots) that no downstream branch reads; it is not modelled. -/
structure PtData where
  x : ℚ
  y : ℚ
  is_gap : Bool
deriving Repr, DecidableEq

/-- A path segment operation; serialization to the SVG string is a
boundary concern and not modelled. -/
inductive PathOp where
  | move (x y : ℚ)
  | line (x y : ℚ)
  | closePath
deriving Repr, DecidableEq

/-- A Python runtime error raised by the embedded code. -/
inductive PyErr where
  | nameError (n : String)
  | typeError
  | attributeError
deriving Repr, DecidableEq

/-- Module-level imports of openf1_service.py (lines 1-4). -/
def openf1ModuleImports : List String := ["requests", "json", "time", "typing"]

/-- Names imported locally inside `provision_session` (line 140). -/
def provisionLocalImports : List String := ["datetime"]

/-- Whether the name `math` resolves inside `provision_session`:
openf1_service.py never imports `math` at module level or locally, so its
uses of `math.hypot` (lines 176 and 193) raise `NameError` when reached. -/
def openf1MathImported : Bool :=
  openf1ModuleImports.contains "math" || provisionLocalImports.contains "math"

/-- `MAX_GAP = 500` (line 166). -/
def MAX_GAP : ℚ := 500

/-- `CLOSE_THRESHOLD = 200` (line 167). -/
def CLOSE_THRESHOLD : ℚ := 200

/-- Squared Euclidean distance; `math.hypot dx dy ≶ c` for `c > 0` is
embedded as `hypotSq dx dy ≶ c*c`. -/
def hypotSq (dx dy : ℚ) : ℚ := dx * dx + dy * dy

/-- Python slicing `l[::s]` for step `s ≥ 1`: every s-th element,
preserving order. -/
def sliceStep (l : List α) (s : ℕ) : List α :=
  (l.enum.filter (fun p => p.1 % s = 0)).map (·.2)

/-- The first pass of the smoothing stage (lines 169-186): normalize each
sampled point, detect gaps against the previous normalized point
(`math.hypot` — a `NameError` when `math` is not imported and `i > 0`),
and build `points_data` plus the linear `path_segments`. -/
def rawPass (mathOk : Bool) (norm : ℚ → ℚ → ℚ × ℚ) :
    Option PtData → ℕ → List Pt → Except PyErr (List PtData × List PathOp)
  | _, _, [] => .ok ([], [])
  | prevOpt, i, p :: rest =>
    let nxy := norm p.x p.y
    let nx := nxy.1
    let ny := nxy.2
    match prevOpt with
    | some prev =>
      if mathOk then
        let is_gap := decide (MAX_GAP * MAX_GAP < hypotSq (nx - prev.x) (ny - prev.y))
        let pt : PtData := ⟨nx, ny, is_gap⟩
        let cmd := if i = 0 ∨ is_gap then PathOp.move nx ny else PathOp.line nx ny
        match rawPass mathOk norm (some pt) (i + 1) rest with
        | .error e => .error e
        | .ok (pd, ps) => .ok (pt :: pd, cmd :: ps)
      else .error (.nameError "math")
    | none =>
      let pt : PtData := ⟨nx, ny, false⟩
      let cmd := if i = 0 then PathOp.move nx ny else PathOp.line nx ny
      match rawPass mathOk norm (some pt) (i + 1) rest with
      | .error e => .error e
      | .ok (pd, ps) => .ok (pt :: pd, cmd :: ps)

/-- Placeholder point for guarded list indexing. -/
def pt0 : PtData := ⟨0, 0, false⟩

/-- The closure check (lines 189-194): only sequences longer than 2 points
are tested; `math.hypot` between the first and last `points_data` entries
against `CLOSE_THRESHOLD`. -/
def closureCheck (mathOk : Bool) (pd : List PtData) : Except PyErr Bool :=
  if 2 < pd.length then
    if mathOk then
      let pS := pd.headD pt0
      let pE := pd.getLastD pt0
      .ok (decide (hypotSq (pE.x - pS.x) (pE.y - pS.y) < CLOSE_THRESHOLD * CLOSE_THRESHOLD))
    else .error (.nameError "math")
  else .ok false

/-- One Catmull-Rom interpolated point (lines 213-222). -/
def catmullPoint (p0 p1 p2 p3 : PtData) (t : ℚ) : ℚ × ℚ :=
  let t2 := t * t
  let t3 := t * t * t
  let f1 := -0.5 * t3 + t2 - 0.5 * t
  let f2 := 1.5 * t3 - 2.5 * t2 + 1.0
  let f3 := -1.5 * t3 + 2.0 * t2 + 0.5 * t
  let f4 := 0.5 * t3 - 0.5 * t2
  (p0.x * f1 + p1.x * f2 + p2.x * f3 + p3.x * f4,
   p0.y * f1 + p1.y * f2 + p2.y * f3 + p3.y * f4)

/-- The spline pass over `points_data` (lines 199-225).  Python's
`(i - 1) % n` on a possibly negative left operand is embedded as
`(i + n - 1) % n` for `i < n`; the open case `max(0, i-1)` is ℕ
subtraction.  The gap test at line 208 reads `points_data[(i+1)%n]`
with the wrap even for open sequences, as the source does. -/
def smoothSegments (pd : List PtData) (is_closed : Bool) : List PathOp :=
  let n := pd.length
  (List.range n).foldr (fun i acc =>
    let p0 := pd.getD (if is_closed then (i + n - 1) % n else i - 1) pt0
    let p1 := pd.getD i pt0
    let p2 := pd.getD (if is_closed then (i + 1) % n else min (n - 1) (i + 1)) pt0
    let p3 := pd.getD (if is_closed then (i + 2) % n else min (n - 1) (i + 2)) pt0
    (if (pd.getD ((i + 1) % n) pt0).is_gap ∨ p1.is_gap then
      [PathOp.move p1.x p1.y]
    else
      (List.range 4).map (fun t_idx =>
        let t : ℚ := (t_idx : ℚ) / 4
        let sxy := catmullPoint p0 p1 p2 p3 t
        if i = 0 ∧ t_idx = 0 then PathOp.move sxy.1 sxy.2
        else PathOp.line sxy.1 sxy.2)) ++ acc) []

/-- The result of the smoothing stage: the path operations (`svg_path`
before serialization), `points_data` (the returned `track_layout`) and the
internal `is_closed` flag. -/
structure SmoothResult where
  path : List PathOp
  points_data : List PtData
  is_closed : Bool
deriving Repr, DecidableEq

/-- The smoothing stage of `provision_session` (lines 157-232): empty
input yields the empty result; otherwise subsample to ≈1000 points
(`step = max(1, len//1000)`, `locs[::step]`), run the raw pass, the
closure check, and either the Catmull-Rom pass (4 or more points, with a
closing `Z` when `is_closed`) or the linear fallback. -/
def provisionPath (mathOk : Bool) (norm : ℚ → ℚ → ℚ × ℚ) (locs : List Pt) :
    Except PyErr SmoothResult :=
  if locs.isEmpty then .ok ⟨[], [], false⟩
  else
    let step := max 1 (locs.length / 1000)
    let sampled := sliceStep locs step
    match rawPass mathOk norm none 0 sampled with
    | .error e => .error e
    | .ok (pd, ps) =>
      match closureCheck mathOk pd with
      | .error e => .error e
      | .ok is_closed =>
        if 4 ≤ pd.length then
          .ok ⟨smoothSegments pd is_closed ++
            (if is_closed then [PathOp.closePath] else []), pd, is_closed⟩
        else
          .ok ⟨ps ++ (if is_closed then [PathOp.closePath] else []), pd, is_closed⟩

/-- What `provision_session` (lines 124-240) reads from the outside: the
driver list, the session info (`date_start`), the location sample fetched
for the bounds window, and the geo sample fetched for the path (empty when
that request failed, lines 145-155). -/
structure ProvisionEnv where
  drivers : List ℕ
  session_info : Option String
  boundsLocations : List Loc
  sampleLocs : List Pt
deriving Repr, DecidableEq

/-- The provisioning result: the drivers, `track_path` (before SVG string
serialization) and `track_layout`. -/
structure ProvisionResult where
  drivers : List ℕ
  track_path : List PathOp
  track_layout : List PtData
deriving Repr, DecidableEq

/-- `provision_session` (lines 124-240): compute (and cache) bounds, bail
out early with an empty result when there are no drivers, raise
`AttributeError` when `session_info` is `None` (line 137 calls `.get` on
it), then run the smoothing stage with `normalize_point` observing the
bounds cache left by `calculate_session_bounds`. -/
def provision_session (cfg : ServiceCfg) (mathOk : Bool) (env : ProvisionEnv) :
    Except PyErr ProvisionResult :=
  let benv : BoundsEnv := ⟨env.drivers, env.session_info, env.boundsLocations⟩
  let bounds := calculate_session_bounds cfg none benv
  if env.drivers.isEmpty then .ok ⟨[], [], []⟩
  else
    match env.session_info with
    | none => .error .attributeError
    | some _ =>
      match provisionPath mathOk (fun x y => normalize_point cfg bounds benv x y)
          env.sampleLocs with
      | .error e => .error e
      | .ok r => .ok ⟨env.drivers, r.path, r.points_data⟩

/-! ### IngestionBuffer and ChunkFetcher (bridge_server.py lines 40-141). -/

/-- The per-kind sample streams. The ingest loop requests the `car_data`
(telemetry) and `location` endpoints; the `weather` endpoint is only ever
requested by `fetch_live_data` in the live branch, never by the loop. -/
inductive Kind where
  | telemetry
  | location
  | weather
deriving Repr, DecidableEq

/-- A telemetry (car_data) record; only its `date` cursor field is read by
the ingestion core. -/
structure TelRec where
  date : String
deriving Repr, DecidableEq

/-- A location record: `date` plus possibly-null coordinates. -/
structure LocRec where
  date : String
  x : Option ℚ
  y : Option ℚ
deriving Repr, DecidableEq

/-- A weather record (the buffer's third sequence, which the loop never
writes). -/
structure WRec where
  date : String
deriving Repr, DecidableEq

/-- One `requests.get` outcome: the call raised (network error, timeout)
or returned a status code with a JSON record list. -/
inductive FetchOut (α : Type) where
  | exn
  | resp (status : ℕ) (records : List α)
deriving Repr, DecidableEq

/-- The per-session buffer dict created by `get_session_data`
(lines 45-53). -/
structure SessionData where
  telemetry : List TelRec
  location : List LocRec
  weather : List WRec
  last_ingested : Option String
deriving Repr, DecidableEq

/-- The freshly created buffer (lines 47-52). -/
def emptySession : SessionData := ⟨[], [], [], none⟩

/-- In-loop normalization of one location record (lines 104-108): records
with a null `x` are skipped; with no bounds available `normalize_point` is
the identity; with bounds and a null `y` the arithmetic inside
`normalize_point` raises `TypeError`. -/
def normalizeLocRec (b : Option Bounds) (l : LocRec) : Except PyErr LocRec :=
  match l.x with
  | none => .ok l
  | some x =>
    match b with
    | none => .ok l
    | some bd =>
      match l.y with
      | none => .error .typeError
      | some y =>
        .ok ⟨l.date, some ((x - bd.min_x) * bd.scale + bd.ox),
          some ((y - bd.min_y) * bd.scale + bd.oy)⟩

/-- The non-empty-window update (lines 101-112): normalize the fetched
locations, extend the per-kind sequences in arrival order, advance
`last_ingested` to the window's end cursor. -/
def appendChunk (b : Option Bounds) (endCursor : String) (d : SessionData)
    (new_tel : List TelRec) (new_loc : List LocRec) : Except PyErr SessionData :=
  match new_loc.mapM (normalizeLocRec b) with
  | .error e => .error e
  | .ok nl => .ok ⟨d.telemetry ++ new_tel, d.location ++ nl, d.weather, some endCursor⟩

/-- The observable outcome of a fetch-loop run: the final buffer, the
number of loop iterations entered, the final empty-streak counter, whether
an exception ended the run early, and the (window, kind) fetch calls the
loop issued. -/
structure LoopRes where
  data : SessionData
  iters : ℕ
  emptyCount : ℕ
  aborted : Bool
  calls : List (ℕ × Kind)
deriving Repr, DecidableEq

/-- Accounts for iteration `i`: its two fetch calls, one more iteration. -/
def bump (i : ℕ) (r : LoopRes) : LoopRes :=
  ⟨r.data, r.iters + 1, r.emptyCount, r.aborted,
    (i, Kind.telemetry) :: (i, Kind.location) :: r.calls⟩

/-- `resp.json() if resp.status_code == 200 else []` (lines 86 and 92). -/
def statusFilter (s : ℕ) (l : List α) : List α := if s = 200 then l else []

/-- The fetch loop of `BackgroundIngestor.ingest` (lines 76-122) over a
source oracle giving, per window index, the outcome of the telemetry and
location requests; `b` is the service's bounds for this key (stable for
the run) and `fmt i` the formatted end cursor `c_end` of window `i`.
An exception from either `requests.get` — or a `TypeError` from the
in-loop normalization — ends the run at once, keeping the buffer as
already accumulated (the surrounding `try` hands the exception to the
run-level handler at line 135); a non-200 status yields an empty record
list for its kind (lines 86 and 92); a window with both kinds empty
increments the streak and the loop breaks at three (lines 94-99);
otherwise the streak resets and the window is appended.  The fuel starts
at `max_chunks`. -/
def ingestLoop (source : ℕ → FetchOut TelRec × FetchOut LocRec) (b : Option Bounds)
    (fmt : ℕ → String) : ℕ → ℕ → ℕ → SessionData → LoopRes
  | 0, _, ec, d => ⟨d, 0, ec, false, []⟩
  | fuel + 1, i, ec, d =>
    match source i with
    | (.exn, _) => ⟨d, 1, ec, true, [(i, Kind.telemetry)]⟩
    | (.resp _ _, .exn) => ⟨d, 1, ec, true, [(i, Kind.telemetry), (i, Kind.location)]⟩
    | (.resp ts tr, .resp ls lr) =>
      let new_tel := statusFilter ts tr
      let new_loc := statusFilter ls lr
      if new_tel.isEmpty ∧ new_loc.isEmpty then
        if 3 ≤ ec + 1 then ⟨d, 1, ec + 1, false, [(i, Kind.telemetry), (i, Kind.location)]⟩
        else bump i (ingestLoop source b fmt fuel (i + 1) (ec + 1) d)
      else
        match appendChunk b (fmt i) d new_tel new_loc with
        | .error _ => ⟨d, 1, ec, true, [(i, Kind.telemetry), (i, Kind.location)]⟩
        | .ok d2 => bump i (ingestLoop source b fmt fuel (i + 1) 0 d2)

/-- `max_chunks = 48` (line 68). -/
def max_chunks : ℕ := 48

/-- A full fetch-loop run: `cursor` at the session start, streak 0, full
chunk budget. -/
def ingestRun (source : ℕ → FetchOut TelRec × FetchOut LocRec) (b : Option Bounds)
    (fmt : ℕ → String) (d0 : SessionData) : LoopRes :=
  ingestLoop source b fmt max_chunks 0 0 d0

/-- `BackgroundIngestor` state: the sessions dict and the in-flight key
set (lines 41-43). -/
structure IngestorState where
  sessions : List (ℕ × SessionData)
  active_tasks : List ℕ
deriving Repr, DecidableEq

/-- Dict lookup in `self.sessions`. -/
def lookupSession (st : IngestorState) (key : ℕ) : Option SessionData :=
  (st.sessions.find? (fun p => p.1 = key)).map (·.2)

/-- Dict store `self.sessions[key] = d`. -/
def setSession (st : IngestorState) (key : ℕ) (d : SessionData) : IngestorState :=
  if (st.sessions.find? (fun p => p.1 = key)).isSome then
    { st with sessions := st.sessions.map (fun p => if p.1 = key then (key, d) else p) }
  else { st with sessions := st.sessions ++ [(key, d)] }

/-- `get_session_data` (lines 45-53): the session's buffer, created empty
in the dict when absent. -/
def get_session_data (st : IngestorState) (key : ℕ) : SessionData × IngestorState :=
  match lookupSession st key with
  | some d => (d, st)
  | none => (emptySession, setSession st key emptySession)

/-- The guard of `ingest` (lines 56-58): a no-op when the key is already
in flight, else the key is marked.  The Bool says whether a loop starts. -/
def ingest_begin (st : IngestorState) (key : ℕ) : IngestorState × Bool :=
  if key ∈ st.active_tasks then (st, false)
  else ({ st with active_tasks := key :: st.active_tasks }, true)

/-- `BackgroundIngestor.ingest` (lines 55-138): guard, run the fetch loop
over the (in-place mutated) session buffer, and clear the in-flight marker
in the `finally`.  The snapshot write at line 128 references `json`, which
bridge_server.py never imports; that `NameError` — like any exception
escaping the loop — is caught by the run-level handler at line 135 and
never re-raised, so the wrapper is total.  The Bool reports whether this
call ran a loop. -/
def ingest (st : IngestorState) (key : ℕ)
    (source : ℕ → FetchOut TelRec × FetchOut LocRec) (b : Option Bounds)
    (fmt : ℕ → String) : IngestorState × Bool :=
  let bg := ingest_begin st key
  if bg.2 then
    let ds := get_session_data bg.1 key
    let res := ingestRun source b fmt ds.1
    let st3 := setSession ds.2 key res.data
    ({ st3 with active_tasks := st3.active_tasks.erase key }, true)
  else (bg.1, false)

/-! ### IncrementalReader (bridge_server.py lines 320-378, historical
branch). -/

/-- Code-point lexicographic order on character lists: the comparison
Python applies to timestamp strings (`t["date"] > last_date`). -/
def charListLt : List Char → List Char → Bool
  | [], [] => false
  | [], _ :: _ => true
  | _ :: _, [] => false
  | a :: as, b :: bs =>
    if a.toNat < b.toNat then true
    else if b.toNat < a.toNat then false
    else charListLt as bs

/-- Python `a < b` on strings: code-point lexicographic. -/
def pyStrLt (a b : String) : Bool := charListLt a.data b.data

/-- The response of the historical branch of `get_openf1_live`. -/
structure LiveResp where
  telemetry : List TelRec
  location : List LocRec
  weather : List WRec
  buffer_size : ℕ
  is_ingesting : Bool
deriving Repr, DecidableEq

/-- The historical branch of `get_openf1_live` (lines 348-365): read the
(possibly just created) buffer, keep the records with `date > last_date`
(strict Python string comparison, embedded as Lean's lexicographic
`String` order — both compare code points), truncate each kind to its
first 1000 records, and report the telemetry count as `buffer_size` plus
the in-flight flag.  The response's weather list is the literal `[]` of
line 362. -/
def get_openf1_live_hist (st : IngestorState) (key : ℕ) (last_date : String) :
    LiveResp × IngestorState :=
  let ds := get_session_data st key
  let data := ds.1
  let tel_subset := data.telemetry.filter (fun t => pyStrLt last_date t.date)
  let loc_subset := data.location.filter (fun l => pyStrLt last_date l.date)
  let tel_subset2 := if 1000 < tel_subset.length then tel_subset.take 1000 else tel_subset
  let loc_subset2 := if 1000 < loc_subset.length then loc_subset.take 1000 else loc_subset
  (⟨tel_subset2, loc_subset2, [], data.telemetry.length,
    decide (key ∈ ds.2.active_tasks)⟩, ds.2)

/-! ### Concrete instances used by counterexamples and witnesses. -/

/-- A two-point bounds sample. -/
def demoLocs : List Loc := [⟨some 0, some 0⟩, ⟨some 10, some 20⟩]

/-- The bounds the service computes from `demoLocs` under `defaultCfg`:
ranges 10 and 20, scale `min (900/10) (600/20) = 30`, centering offsets. -/
def demoBounds : Bounds := ⟨0, 10, 0, 20, 30, 350, 50⟩

/-- Four points whose final raw step exceeds `MAX_GAP` while the last
point lies within `CLOSE_THRESHOLD` of the first. -/
def gapLoopPts : List Pt := [⟨0, 0⟩, ⟨100, 0⟩, ⟨900, 0⟩, ⟨10, 0⟩]

/-- A three-point gap-free loop. -/
def triLoopPts : List Pt := [⟨0, 0⟩, ⟨100, 0⟩, ⟨10, 0⟩]

/-- The smoothing result on `triLoopPts` (linear fallback, closed). -/
def triRes : SmoothResult :=
  ⟨[PathOp.move 0 0, PathOp.line 100 0, PathOp.line 10 0, PathOp.closePath],
   [⟨0, 0, false⟩, ⟨100, 0, false⟩, ⟨10, 0, false⟩], true⟩

/-- A provisioning environment whose bounds sample is empty but whose geo
sample has one point. -/
def env8 : ProvisionEnv := ⟨[1], some "2024-03-01T00:00:00", [], [⟨0, 0⟩]⟩

/-- A bounds environment with no drivers. -/
def envNoDrivers : BoundsEnv := ⟨[], some "2024-03-01T00:00:00", []⟩

/-- A source whose first telemetry request raises while every later
window would have data. -/
def exnSource : ℕ → FetchOut TelRec × FetchOut LocRec := fun i =>
  if i = 0 then (.exn, .resp 200 [])
  else (.resp 200 [⟨"2024-03-01T00:07:00"⟩], .resp 200 [])

/-- One non-empty telemetry window, then silence. -/
def telOnlySource : ℕ → FetchOut TelRec × FetchOut LocRec := fun i =>
  if i = 0 then (.resp 200 [⟨"2024-03-01T00:01:00"⟩], .resp 200 [])
  else (.resp 200 [], .resp 200 [])

/-- The all-empty source. -/
def emptySource : ℕ → FetchOut TelRec × FetchOut LocRec :=
  fun _ => (.resp 200 [], .resp 200 [])

/-- Data in windows 0-4 (one telemetry record each), silence after. -/
def fiveChunkSource : ℕ → FetchOut TelRec × FetchOut LocRec := fun i =>
  (.resp 200 (if i < 5 then [⟨"d"⟩] else []), .resp 200 [])

/-- An ingestor whose buffer for key 1 holds a single weather record. -/
def weatherState : IngestorState :=
  ⟨[(1, ⟨[], [], [⟨"13:00:00"⟩], none⟩)], []⟩

/-! ## Theorems -/

theorem foldl_min_le (a : ℚ) (l : List ℚ) : l.foldl min a ≤ a := by
  induction l generalizing a with
  | nil => simp
  | cons b t ih =>
    calc (b :: t).foldl min a = t.foldl min (min a b) := rfl
    _ ≤ min a b := ih (min a b)
    _ ≤ a := min_le_left a b

theorem le_foldl_max (a : ℚ) (l : List ℚ) : a ≤ l.foldl max a := by
  induction l generalizing a with
  | nil => simp
  | cons b t ih =>
    calc a ≤ max a b := le_max_left a b
    _ ≤ t.foldl max (max a b) := ih (max a b)
    _ = (b :: t).foldl max a := rfl

theorem pyMin_le_pyMax (l : List ℚ) (h : l ≠ []) : pyMin l ≤ pyMax l := by
  cases l with
  | nil => exact absurd rfl h
  | cons a t =>
    calc pyMin (a :: t) = t.foldl min a := rfl
    _ ≤ a := foldl_min_le a t
    _ ≤ t.foldl max a := le_foldl_max a t
    _ = pyMax (a :: t) := rfl

theorem clampRange_pos (r : ℚ) (h : 0 ≤ r) : 0 < clampRange r := by
  unfold clampRange
  split
  · norm_num
  · exact lt_of_le_of_ne h (by symm; assumption)

theorem le_clampRange (r : ℚ) : r ≤ clampRange r := by
  unfold clampRange
  split
  · simp_all
  · exact le_refl r

theorem mkBounds_spec (cfg : ServiceCfg) (xs ys : List ℚ)
    (hxs : xs ≠ []) (hys : ys ≠ [])
    (hw : 2 * cfg.padding < cfg.norm_width)
    (hh : 2 * cfg.padding < cfg.norm_height) :
    0 < (mkBounds cfg xs ys).scale ∧
      ∀ x y : ℚ, (mkBounds cfg xs ys).min_x ≤ x → x ≤ (mkBounds cfg xs ys).max_x →
        (mkBounds cfg xs ys).min_y ≤ y → y ≤ (mkBounds cfg xs ys).max_y →
        cfg.padding ≤ (normalizeXY (mkBounds cfg xs ys) x y).1 ∧
        (normalizeXY (mkBounds cfg xs ys) x y).1 ≤ cfg.norm_width - cfg.padding ∧
        cfg.padding ≤ (normalizeXY (mkBounds cfg xs ys) x y).2 ∧
        (normalizeXY (mkBounds cfg xs ys) x y).2 ≤ cfg.norm_height - cfg.padding := by
  have hxm : pyMin xs ≤ pyMax xs := pyMin_le_pyMax xs hxs
  have hym : pyMin ys ≤ pyMax ys := pyMin_le_pyMax ys hys
  set xr := clampRange (pyMax xs - pyMin xs) with hxr_def
  set yr := clampRange (pyMax ys - pyMin ys) with hyr_def
  have hxr : 0 < xr := clampRange_pos _ (by linarith)
  have hyr : 0 < yr := clampRange_pos _ (by linarith)
  have hxrle : pyMax xs - pyMin xs ≤ xr := le_clampRange _
  have hyrle : pyMax ys - pyMin ys ≤ yr := le_clampRange _
  set sx := (cfg.norm_width - 2 * cfg.padding) / xr with hsx_def
  set sy := (cfg.norm_height - 2 * cfg.padding) / yr with hsy_def
  have hsx : 0 < sx := div_pos (by linarith) hxr
  have hsy : 0 < sy := div_pos (by linarith) hyr
  set s := min sx sy with hs_def
  have hs : 0 < s := lt_min hsx hsy
  have hxs_bound : xr * s ≤ cfg.norm_width - 2 * cfg.padding := by
    have h1 : xr * s ≤ xr * sx :=
      mul_le_mul_of_nonneg_left (min_le_left sx sy) (le_of_lt hxr)
    have h2 : xr * sx = cfg.norm_width - 2 * cfg.padding := by
      rw [hsx_def]; field_simp
    linarith
  have hys_bound : yr * s ≤ cfg.norm_height - 2 * cfg.padding := by
    have h1 : yr * s ≤ yr * sy :=
      mul_le_mul_of_nonneg_left (min_le_right sx sy) (le_of_lt hyr)
    have h2 : yr * sy = cfg.norm_height - 2 * cfg.padding := by
      rw [hsy_def]; field_simp
    linarith
  have hb : mkBounds cfg xs ys =
      { min_x := pyMin xs, max_x := pyMax xs, min_y := pyMin ys, max_y := pyMax ys,
        scale := s,
        ox := (cfg.norm_width - xr * s) / 2,
        oy := (cfg.norm_height - yr * s) / 2 } := rfl
  rw [hb]
  refine ⟨hs, ?_⟩
  intro x y hx1 hx2 hy1 hy2
  simp only [normalizeXY]
  have hxd1 : 0 ≤ x - pyMin xs := by linarith
  have hxd2 : x - pyMin xs ≤ xr := by linarith
  have hyd1 : 0 ≤ y - pyMin ys := by linarith
  have hyd2 : y - pyMin ys ≤ yr := by linarith
  have hx_lo : 0 ≤ (x - pyMin xs) * s := mul_nonneg hxd1 (le_of_lt hs)
  have hx_hi : (x - pyMin xs) * s ≤ xr * s :=
    mul_le_mul_of_nonneg_right hxd2 (le_of_lt hs)
  have hy_lo : 0 ≤ (y - pyMin ys) * s := mul_nonneg hyd1 (le_of_lt hs)
  have hy_hi : (y - pyMin ys) * s ≤ yr * s :=
    mul_le_mul_of_nonneg_right hyd2 (le_of_lt hs)
  constructor
  · linarith
  constructor
  · linarith
  constructor
  · linarith
  · linarith

theorem calculate_session_bounds_eq_none (cfg : ServiceCfg) (env : BoundsEnv)
    (h : env.drivers = [] ∨ env.session_info = none ∨
      boundsFromLocations cfg env.locations = none) :
    calculate_session_bounds cfg none env = none := by
  unfold calculate_session_bounds
  rcases h with h | h | h
  · simp [h]
  · simp [h]
  · cases hi : env.session_info <;> simp [hi, h]

/-- C1 (code bug): the spec says the smoothing stage never fails for a
non-empty input sequence, falls back to straight segments below 4 points,
and yields an empty result for empty input.  openf1_service.py references
`math.hypot` (lines 176, 193) without ever importing `math`, so every
sample with at least two subsampled points raises `NameError`; only the
empty and one-point cases behave as specified.  Evaluated here at the
two-point failing input, together with the import fact and the
(conforming) empty case. -/
theorem smoothing_missing_math_import :
    openf1MathImported = false ∧
      provisionPath openf1MathImported (fun x y => (x, y)) [⟨0, 0⟩, ⟨10, 0⟩] =
        .error (.nameError "math") ∧
      provisionPath openf1MathImported (fun x y => (x, y)) [] = .ok ⟨[], [], false⟩ :=
  ⟨rfl, rfl, rfl⟩

/-- C10: when bounds are unavailable and cannot be computed for a key (no
drivers, no session info, or no usable location sample), `normalize_point`
returns its input coordinates unchanged instead of raising. -/
theorem normalize_point_identity_fallback (cfg : ServiceCfg) (env : BoundsEnv)
    (x y : ℚ)
    (h : env.drivers = [] ∨ env.session_info = none ∨
      boundsFromLocations cfg env.locations = none) :
    calculate_session_bounds cfg none env = none ∧
      normalize_point cfg none env x y = (x, y) := by
  have hc := calculate_session_bounds_eq_none cfg env h
  refine ⟨hc, ?_⟩
  unfold normalize_point
  rw [hc]

/-- Witness for C10 at a driverless environment and the point (3, 4). -/
theorem normalize_point_identity_fallback_witness :
    calculate_session_bounds defaultCfg none envNoDrivers = none ∧
      normalize_point defaultCfg none envNoDrivers 3 4 = (3, 4) :=
  normalize_point_identity_fallback defaultCfg envNoDrivers 3 4 (Or.inl rfl)

/-- C6: whenever the bounds computation yields bounds (non-empty filtered
coordinate lists), the scale is positive — degenerate axes having been
clamped to a span of 1 — and any point within the bounds normalizes into
`[padding, dim - padding]` on each axis, for every configuration whose
viewport strictly exceeds twice the padding (exact rational arithmetic
stands in for the floating tolerance). -/
theorem normalize_within_viewport (cfg : ServiceCfg) (locations : List Loc)
    (b : Bounds)
    (hw : 2 * cfg.padding < cfg.norm_width) (hh : 2 * cfg.padding < cfg.norm_height)
    (hb : boundsFromLocations cfg locations = some b) :
    0 < b.scale ∧
      ∀ x y : ℚ, b.min_x ≤ x → x ≤ b.max_x → b.min_y ≤ y → y ≤ b.max_y →
        cfg.padding ≤ (normalizeXY b x y).1 ∧
        (normalizeXY b x y).1 ≤ cfg.norm_width - cfg.padding ∧
        cfg.padding ≤ (normalizeXY b x y).2 ∧
        (normalizeXY b x y).2 ≤ cfg.norm_height - cfg.padding := by
  unfold boundsFromLocations at hb
  split at hb
  · exact Option.noConfusion hb
  · split at hb
    · exact Option.noConfusion hb
    · rename_i hne
      push_neg at hne
      injection hb with hb
      subst hb
      exact mkBounds_spec cfg _ _
        (by simpa [List.isEmpty_iff] using hne.1)
        (by simpa [List.isEmpty_iff] using hne.2) hw hh

/-- Witness for C6: the bounds of `demoLocs` under the default
configuration, evaluated at the in-bounds point (5, 10). -/
theorem normalize_within_viewport_witness :
    0 < demoBounds.scale ∧
      defaultCfg.padding ≤ (normalizeXY demoBounds 5 10).1 ∧
      (normalizeXY demoBounds 5 10).1 ≤ defaultCfg.norm_width - defaultCfg.padding ∧
      defaultCfg.padding ≤ (normalizeXY demoBounds 5 10).2 ∧
      (normalizeXY demoBounds 5 10).2 ≤ defaultCfg.norm_height - defaultCfg.padding := by
  have h := normalize_within_viewport defaultCfg demoLocs demoBounds
    (by norm_num [defaultCfg]) (by norm_num [defaultCfg])
    (by simp only [boundsFromLocations, demoLocs, List.filterMap_cons, List.filterMap_nil,
        mkBounds, pyMin, pyMax, List.foldl, clampRange, defaultCfg, demoBounds]
        norm_num [min_def])
  exact ⟨h.1, h.2 5 10 (by norm_num [demoBounds]) (by norm_num [demoBounds])
    (by norm_num [demoBounds]) (by norm_num [demoBounds])⟩

/-- C8 counterexample: with an empty bounds sample the claim expects an
`InsufficientDataError` surfaced to the caller of provision; the code
instead returns `None` from the bounds computation and `provision_session`
succeeds, serving un-normalized coordinates. -/
theorem empty_bounds_no_error_cex :
    calculate_session_bounds defaultCfg none
        ⟨env8.drivers, env8.session_info, env8.boundsLocations⟩ = none ∧
      provision_session defaultCfg openf1MathImported env8 =
        .ok ⟨[1], [PathOp.move 0 0], [⟨0, 0, false⟩]⟩ :=
  ⟨rfl, rfl⟩

/-- C7 counterexample: on `gapLoopPts` the final segment is broken by a
gap (the last `points_data` entry carries `is_gap = true`), yet the code
still sets `is_closed` — the claim's "and no gap broke the final segment"
conjunct is not in the code.  (`math` imported, so the closure check is
reached at all.) -/
theorem closed_flag_ignores_gaps_cex :
    (provisionPath true (fun x y => (x, y)) gapLoopPts).toOption.map
        (fun r => (r.is_closed, (r.points_data.getLastD pt0).is_gap)) =
      some (true, true) := by
  norm_num [provisionPath, sliceStep, rawPass, closureCheck, gapLoopPts, hypotSq,
    MAX_GAP, CLOSE_THRESHOLD, pt0, List.enum, Except.toOption, List.getLastD,
    List.getLast?]

/-- C4 counterexample: for a buffer whose weather sequence holds a record
newer than the cursor, the read returns an empty weather list (and a
`buffer_size` that counts only telemetry), not the filtered weather
records the claim promises for every kind. -/
theorem live_read_drops_weather_cex :
    (get_openf1_live_hist weatherState 1 "12:00:00").1.weather = [] ∧
      ((lookupSession weatherState 1).getD emptySession).weather.filter
        (fun w => pyStrLt "12:00:00" w.date) = [⟨"13:00:00"⟩] ∧
      (get_openf1_live_hist weatherState 1 "12:00:00").1.buffer_size = 0 :=
  ⟨rfl, rfl, rfl⟩

/-- C9 counterexample: a run in which iteration 0 executes and appends
telemetry, yet no weather fetch is ever issued and the buffer's weather
sequence stays empty — the loop requests only the telemetry and location
kinds. -/
theorem weather_never_fetched_cex :
    (ingestRun telOnlySource none (fun _ => "") emptySession).iters = 4 ∧
      (0, Kind.weather) ∉ (ingestRun telOnlySource none (fun _ => "") emptySession).calls ∧
      ((ingestRun telOnlySource none (fun _ => "") emptySession).calls.all
        (fun c => c.2 ≠ Kind.weather)) = true ∧
      (ingestRun telOnlySource none (fun _ => "") emptySession).data.weather = [] ∧
      (ingestRun telOnlySource none (fun _ => "") emptySession).data.telemetry =
        [⟨"2024-03-01T00:01:00"⟩] := by
  refine ⟨rfl, ?_, rfl, rfl, rfl⟩
  decide

/-- C2 counterexample: the first telemetry request raising ends the whole
run at once — `aborted` is set after a single iteration, the buffer stays
untouched and the later (data-bearing) windows are never fetched — rather
than the window being counted as empty and the loop continuing. -/
theorem fetch_exception_aborts_loop_cex :
    ingestRun exnSource none (fun _ => "") emptySession =
      ⟨emptySession, 1, 0, true, [(0, Kind.telemetry)]⟩ := rfl

theorem setSession_active (st : IngestorState) (key : ℕ) (d : SessionData) :
    (setSession st key d).active_tasks = st.active_tasks := by
  unfold setSession
  split <;> rfl

theorem get_session_data_active (st : IngestorState) (key : ℕ) :
    (get_session_data st key).2.active_tasks = st.active_tasks := by
  unfold get_session_data
  cases h : lookupSession st key
  · simp [setSession_active]
  · rfl

theorem trunc_take {α : Type} (l : List α) (n : ℕ) :
    (if n < l.length then l.take n else l) = l.take n := by
  split
  · rfl
  · rw [List.take_of_length_le (by omega)]

/-- C4 amended: the incremental read returns, for the telemetry and
location kinds, exactly the buffered records with timestamp strictly
greater than the cursor (code-point string comparison), in arrival order,
truncated to the first 1000; the weather list of the response is always
empty regardless of the buffer; `buffer_size` counts only the telemetry
sequence; `is_ingesting` reflects the in-flight marker at read time. -/
theorem incremental_read_spec (st : IngestorState) (key : ℕ) (last_date : String) :
    (get_openf1_live_hist st key last_date).1.telemetry =
        ((get_session_data st key).1.telemetry.filter
          (fun t => pyStrLt last_date t.date)).take 1000 ∧
      (get_openf1_live_hist st key last_date).1.location =
        ((get_session_data st key).1.location.filter
          (fun l => pyStrLt last_date l.date)).take 1000 ∧
      (get_openf1_live_hist st key last_date).1.weather = [] ∧
      (get_openf1_live_hist st key last_date).1.buffer_size =
        (get_session_data st key).1.telemetry.length ∧
      (get_openf1_live_hist st key last_date).1.is_ingesting =
        decide (key ∈ st.active_tasks) := by
  simp only [get_openf1_live_hist]
  refine ⟨trunc_take _ _, trunc_take _ _, trivial, trivial, ?_⟩
  rw [get_session_data_active]

/-- C5: at most one fetch loop per key.  A call on an in-flight key
returns at once with the state untouched (no loop, no buffer access); on
a free key exactly one loop runs, the marker is set for the whole run (so
a second call arriving mid-run starts no loop and changes nothing), and
the marker is cleared exactly when the run ends. -/
theorem at_most_one_ingestion (st : IngestorState) (key : ℕ)
    (source : ℕ → FetchOut TelRec × FetchOut LocRec) (b : Option Bounds)
    (fmt : ℕ → String) :
    (key ∈ st.active_tasks → ingest st key source b fmt = (st, false)) ∧
    (key ∉ st.active_tasks →
      (ingest st key source b fmt).2 = true ∧
      (ingest_begin st key).1.active_tasks = key :: st.active_tasks ∧
      ingest (ingest_begin st key).1 key source b fmt =
        ((ingest_begin st key).1, false) ∧
      key ∉ (ingest st key source b fmt).1.active_tasks) := by
  constructor
  · intro h
    unfold ingest ingest_begin
    simp [h]
  · intro h
    have hb1 : ingest_begin st key =
        ({ st with active_tasks := key :: st.active_tasks }, true) := by
      unfold ingest_begin
      rw [if_neg h]
    have hact : (ingest st key source b fmt).1.active_tasks =
        st.active_tasks ∧ (ingest st key source b fmt).2 = true := by
      unfold ingest
      rw [hb1]
      dsimp only
      rw [setSession_active, get_session_data_active]
      dsimp only
      exact ⟨List.erase_cons_head .., rfl⟩
    refine ⟨hact.2, by rw [hb1], ?_, ?_⟩
    · rw [hb1]
      unfold ingest ingest_begin
      simp
    · rw [hact.1]
      exact h

/-- Witness for C5: from an idle state, the first call runs the single
loop and clears the marker; a call in the marked mid-run state is a
no-op. -/
theorem at_most_one_ingestion_witness :
    ((1 : ℕ) ∉ ([] : List ℕ)) ∧
      (ingest ⟨[], []⟩ 1 emptySource none (fun _ => "")).2 = true ∧
      (ingest_begin ⟨[], []⟩ 1).1.active_tasks = [1] ∧
      ingest (ingest_begin ⟨[], []⟩ 1).1 1 emptySource none (fun _ => "") =
        ((ingest_begin ⟨[], []⟩ 1).1, false) ∧
      (1 : ℕ) ∉ (ingest ⟨[], []⟩ 1 emptySource none (fun _ => "")).1.active_tasks := by
  have h := (at_most_one_ingestion ⟨[], []⟩ 1 emptySource none (fun _ => "")).2
    (by simp)
  exact ⟨by simp, h.1, h.2.1, h.2.2.1, h.2.2.2⟩

theorem statusFilter_200 {α : Type} (l : List α) : statusFilter 200 l = l := by
  simp [statusFilter]

theorem statusFilter_ne {α : Type} (s : ℕ) (l : List α) (h : s ≠ 200) :
    statusFilter s l = [] := by
  simp [statusFilter, h]

theorem normalizeLocRec_none (l : LocRec) : normalizeLocRec none l = Except.ok l := by
  unfold normalizeLocRec
  cases l.x <;> rfl

theorem mapM_normalizeLocRec_none (l : List LocRec) :
    l.mapM (normalizeLocRec none) = Except.ok l := by
  induction l with
  | nil => rfl
  | cons a t ih =>
    rw [List.mapM_cons, normalizeLocRec_none, ih]
    rfl

theorem appendChunk_none (endCursor : String) (d : SessionData) (tr : List TelRec)
    (lr : List LocRec) :
    appendChunk none endCursor d tr lr =
      Except.ok ⟨d.telemetry ++ tr, d.location ++ lr, d.weather, some endCursor⟩ := by
  unfold appendChunk
  rw [mapM_normalizeLocRec_none]

theorem ingestLoop_step_exn_tel (source : ℕ → FetchOut TelRec × FetchOut LocRec)
    (b : Option Bounds) (fmt : ℕ → String) (fuel i ec : ℕ) (d : SessionData)
    (o : FetchOut LocRec) (hsrc : source i = (.exn, o)) :
    ingestLoop source b fmt (fuel + 1) i ec d =
      ⟨d, 1, ec, true, [(i, Kind.telemetry)]⟩ := by
  unfold ingestLoop
  rw [hsrc]

theorem ingestLoop_step_exn_loc (source : ℕ → FetchOut TelRec × FetchOut LocRec)
    (b : Option Bounds) (fmt : ℕ → String) (fuel i ec : ℕ) (d : SessionData)
    (ts : ℕ) (tr : List TelRec) (hsrc : source i = (.resp ts tr, .exn)) :
    ingestLoop source b fmt (fuel + 1) i ec d =
      ⟨d, 1, ec, true, [(i, Kind.telemetry), (i, Kind.location)]⟩ := by
  unfold ingestLoop
  rw [hsrc]

theorem ingestLoop_step_empty (source : ℕ → FetchOut TelRec × FetchOut LocRec)
    (b : Option Bounds) (fmt : ℕ → String) (fuel i ec : ℕ) (d : SessionData)
    (ts ls : ℕ) (tr : List TelRec) (lr : List LocRec)
    (hsrc : source i = (.resp ts tr, .resp ls lr))
    (hte : statusFilter ts tr = []) (hle : statusFilter ls lr = []) :
    ingestLoop source b fmt (fuel + 1) i ec d =
      if 3 ≤ ec + 1 then
        ⟨d, 1, ec + 1, false, [(i, Kind.telemetry), (i, Kind.location)]⟩
      else bump i (ingestLoop source b fmt fuel (i + 1) (ec + 1) d) := by
  rw [ingestLoop]
  rw [hsrc]
  dsimp only
  rw [hte, hle]
  rw [if_pos ⟨rfl, rfl⟩]

theorem ingestLoop_step_nonempty (source : ℕ → FetchOut TelRec × FetchOut LocRec)
    (b : Option Bounds) (fmt : ℕ → String) (fuel i ec : ℕ) (d : SessionData)
    (ts ls : ℕ) (tr : List TelRec) (lr : List LocRec)
    (hsrc : source i = (.resp ts tr, .resp ls lr))
    (hne : ¬(statusFilter ts tr = [] ∧ statusFilter ls lr = [])) :
    ingestLoop source b fmt (fuel + 1) i ec d =
      match appendChunk b (fmt i) d (statusFilter ts tr) (statusFilter ls lr) with
      | .error _ => ⟨d, 1, ec, true, [(i, Kind.telemetry), (i, Kind.location)]⟩
      | .ok d2 => bump i (ingestLoop source b fmt fuel (i + 1) 0 d2) := by
  rw [ingestLoop]
  rw [hsrc]
  dsimp only
  rw [if_neg (by simpa [List.isEmpty_iff] using hne)]

theorem ingestLoop_step_data (source : ℕ → FetchOut TelRec × FetchOut LocRec)
    (b : Option Bounds) (fmt : ℕ → String) (fuel i ec : ℕ) (d : SessionData)
    (tr : List TelRec) (lr : List LocRec)
    (hsrc : source i = (.resp 200 tr, .resp 200 lr)) (hne : ¬(tr = [] ∧ lr = []))
    (d2 : SessionData) (happ : appendChunk b (fmt i) d tr lr = .ok d2) :
    ingestLoop source b fmt (fuel + 1) i ec d =
      bump i (ingestLoop source b fmt fuel (i + 1) 0 d2) := by
  rw [ingestLoop_step_nonempty source b fmt fuel i ec d 200 200 tr lr hsrc
    (by simpa [statusFilter_200] using hne)]
  rw [statusFilter_200, statusFilter_200, happ]

theorem ingestLoop_term_chars (source : ℕ → FetchOut TelRec × FetchOut LocRec)
    (b : Option Bounds) (fmt : ℕ → String) :
    ∀ (fuel i ec : ℕ) (d : SessionData), ec ≤ 2 →
      (ingestLoop source b fmt fuel i ec d).aborted = false →
      (ingestLoop source b fmt fuel i ec d).iters = fuel ∨
        (ingestLoop source b fmt fuel i ec d).emptyCount = 3 := by
  intro fuel
  induction fuel with
  | zero =>
    intro i ec d _ _
    left
    rfl
  | succ n ih =>
    intro i ec d hec hab
    rcases hsrc : source i with ⟨t, l⟩
    cases t with
    | exn =>
      rw [ingestLoop_step_exn_tel source b fmt n i ec d l hsrc] at hab
      exact absurd hab (by simp)
    | resp ts tr =>
      cases l with
      | exn =>
        rw [ingestLoop_step_exn_loc source b fmt n i ec d ts tr hsrc] at hab
        exact absurd hab (by simp)
      | resp ls lr =>
        by_cases he : statusFilter ts tr = [] ∧ statusFilter ls lr = []
        · rw [ingestLoop_step_empty source b fmt n i ec d ts ls tr lr hsrc he.1 he.2]
            at hab ⊢
          by_cases h3 : 3 ≤ ec + 1
          · rw [if_pos h3] at hab ⊢
            right
            dsimp only
            omega
          · rw [if_neg h3] at hab ⊢
            have hab2 : (ingestLoop source b fmt n (i + 1) (ec + 1) d).aborted = false := by
              simpa [bump] using hab
            rcases ih (i + 1) (ec + 1) d (by omega) hab2 with hcase | hcase
            · left
              simp [bump, hcase]
            · right
              simpa [bump] using hcase
        · rw [ingestLoop_step_nonempty source b fmt n i ec d ts ls tr lr hsrc he]
            at hab ⊢
          cases happ : appendChunk b (fmt i) d (statusFilter ts tr) (statusFilter ls lr) with
          | error e =>
            simp only [happ] at hab
            simp at hab
          | ok d2 =>
            simp only [happ] at hab ⊢
            have hab2 : (ingestLoop source b fmt n (i + 1) 0 d2).aborted = false := by
              simpa [bump] using hab
            rcases ih (i + 1) 0 d2 (by omega) hab2 with hcase | hcase
            · left
              simp [bump, hcase]
            · right
              simpa [bump] using hcase

/-- C3: the fetch loop terminates exactly on a streak of 3 consecutive
empty windows or on exhausting the 48-chunk budget — first conjunct: any
non-aborted run either consumed all its fuel or stopped with the streak
at 3.  Concretely (remaining conjuncts): for a source with non-empty
windows 0-4 and empty windows from 5 on, the run executes exactly
8 iterations — windows 0-7, the last three empty, so window index 8 is
never fetched — without abort, and the buffer holds exactly the records
of windows 0-4 in arrival order with the cursor at window 4's end. -/
theorem chunk_fetch_termination (tel : ℕ → List TelRec) (loc : ℕ → List LocRec)
    (fmt : ℕ → String)
    (h5 : ∀ i, i < 5 → ¬(tel i = [] ∧ loc i = []))
    (hE : ∀ i, 5 ≤ i → tel i = [] ∧ loc i = []) :
    (∀ (source : ℕ → FetchOut TelRec × FetchOut LocRec) (b : Option Bounds)
        (fuel i ec : ℕ) (d : SessionData), ec ≤ 2 →
        (ingestLoop source b fmt fuel i ec d).aborted = false →
        (ingestLoop source b fmt fuel i ec d).iters = fuel ∨
          (ingestLoop source b fmt fuel i ec d).emptyCount = 3) ∧
      (ingestRun (fun i => (.resp 200 (tel i), .resp 200 (loc i))) none fmt
          emptySession).iters = 8 ∧
      (ingestRun (fun i => (.resp 200 (tel i), .resp 200 (loc i))) none fmt
          emptySession).aborted = false ∧
      (ingestRun (fun i => (.resp 200 (tel i), .resp 200 (loc i))) none fmt
          emptySession).emptyCount = 3 ∧
      (ingestRun (fun i => (.resp 200 (tel i), .resp 200 (loc i))) none fmt
          emptySession).data.telemetry =
        tel 0 ++ tel 1 ++ tel 2 ++ tel 3 ++ tel 4 ∧
      (ingestRun (fun i => (.resp 200 (tel i), .resp 200 (loc i))) none fmt
          emptySession).data.location =
        loc 0 ++ loc 1 ++ loc 2 ++ loc 3 ++ loc 4 ∧
      (ingestRun (fun i => (.resp 200 (tel i), .resp 200 (loc i))) none fmt
          emptySession).data.last_ingested = some (fmt 4) := by
  refine ⟨fun source b fuel i ec d hec hab =>
    ingestLoop_term_chars source b fmt fuel i ec d hec hab, ?_⟩
  set S := (fun i => ((.resp 200 (tel i) : FetchOut TelRec),
    (.resp 200 (loc i) : FetchOut LocRec))) with hS
  have step : ∀ (fuel i ec : ℕ) (d : SessionData), i < 5 →
      ingestLoop S none fmt (fuel + 1) i ec d =
        bump i (ingestLoop S none fmt fuel (i + 1) 0
          ⟨d.telemetry ++ tel i, d.location ++ loc i, d.weather, some (fmt i)⟩) :=
    fun fuel i ec d hi =>
      ingestLoop_step_data S none fmt fuel i ec d (tel i) (loc i) (by rw [hS])
        (h5 i hi) _ (appendChunk_none (fmt i) d (tel i) (loc i))
  have stepE : ∀ (fuel i ec : ℕ) (d : SessionData), 5 ≤ i →
      ingestLoop S none fmt (fuel + 1) i ec d =
        (if 3 ≤ ec + 1 then
          ⟨d, 1, ec + 1, false, [(i, Kind.telemetry), (i, Kind.location)]⟩
         else bump i (ingestLoop S none fmt fuel (i + 1) (ec + 1) d)) :=
    fun fuel i ec d hi =>
      ingestLoop_step_empty S none fmt fuel i ec d 200 200 (tel i) (loc i) (by rw [hS])
        (by rw [statusFilter_200]; exact (hE i hi).1)
        (by rw [statusFilter_200]; exact (hE i hi).2)
  unfold ingestRun
  rw [show max_chunks = 47 + 1 from by norm_num [max_chunks]]
  rw [step 47 0 0 emptySession (by omega)]
  rw [show (47 : ℕ) = 46 + 1 from by norm_num]
  rw [step 46 1 0 _ (by omega)]
  rw [show (46 : ℕ) = 45 + 1 from by norm_num]
  rw [step 45 2 0 _ (by omega)]
  rw [show (45 : ℕ) = 44 + 1 from by norm_num]
  rw [step 44 3 0 _ (by omega)]
  rw [show (44 : ℕ) = 43 + 1 from by norm_num]
  rw [step 43 4 0 _ (by omega)]
  rw [show (43 : ℕ) = 42 + 1 from by norm_num]
  rw [stepE 42 5 0 _ (by omega), if_neg (by omega)]
  rw [show (42 : ℕ) = 41 + 1 from by norm_num]
  rw [stepE 41 6 1 _ (by omega), if_neg (by omega)]
  rw [show (41 : ℕ) = 40 + 1 from by norm_num]
  rw [stepE 40 7 2 _ (by omega), if_pos (by omega)]
  simp [bump, emptySession]

/-- Witness for C3: one telemetry record in each of windows 0-4, nothing
after; the run stops after 8 iterations with the five records buffered. -/
theorem chunk_fetch_termination_witness :
    (ingestRun fiveChunkSource none (fun _ => "") emptySession).iters = 8 ∧
      (ingestRun fiveChunkSource none (fun _ => "") emptySession).aborted = false ∧
      (ingestRun fiveChunkSource none (fun _ => "") emptySession).emptyCount = 3 ∧
      (ingestRun fiveChunkSource none (fun _ => "") emptySession).data.telemetry =
        [⟨"d"⟩, ⟨"d"⟩, ⟨"d"⟩, ⟨"d"⟩, ⟨"d"⟩] := by
  have h := (chunk_fetch_termination (fun i => if i < 5 then [⟨"d"⟩] else [])
    (fun _ => []) (fun _ => "")
    (fun i hi => by simp [hi])
    (fun i hi => by simp [Nat.not_lt.mpr hi])).2
  refine ⟨h.1, h.2.1, h.2.2.1, ?_⟩
  exact (h.2.2.2.1).trans (by simp)

theorem appendChunk_weather (b : Option Bounds) (c : String) (d d2 : SessionData)
    (tr : List TelRec) (lr : List LocRec) (h : appendChunk b c d tr lr = .ok d2) :
    d2.weather = d.weather := by
  unfold appendChunk at h
  cases hm : lr.mapM (normalizeLocRec b) with
  | error e =>
    simp only [hm] at h
    exact Except.noConfusion h
  | ok nl =>
    simp only [hm] at h
    cases h
    rfl

/-- C2 amended: a non-200 response is an empty result for its kind and is
folded into the empty streak — a run over all-non-200 windows terminates
normally after three windows with nothing appended, whatever records the
responses carried.  An exception raised by a window's fetch (network
error, timeout) instead ends the run at once with the buffer as
accumulated so far; the run-level handler still returns normally to the
caller of `ingest` and clears the in-flight marker. -/
theorem fetch_failure_semantics (s1 s2 : ℕ) (h1 : s1 ≠ 200) (h2 : s2 ≠ 200)
    (tr : List TelRec) (lr : List LocRec) (tel0 : List TelRec) (h0 : tel0 ≠ [])
    (fmt : ℕ → String) (key : ℕ) (st : IngestorState) (hk : key ∉ st.active_tasks) :
    ingestRun (fun _ => (.resp s1 tr, .resp s2 lr)) none fmt emptySession =
      ⟨emptySession, 3, 3, false,
        [(0, Kind.telemetry), (0, Kind.location), (1, Kind.telemetry),
         (1, Kind.location), (2, Kind.telemetry), (2, Kind.location)]⟩ ∧
    (ingestRun (fun i => if i = 0 then (.resp 200 tel0, .resp 200 [])
        else (.exn, .exn)) none fmt emptySession).aborted = true ∧
    (ingestRun (fun i => if i = 0 then (.resp 200 tel0, .resp 200 [])
        else (.exn, .exn)) none fmt emptySession).iters = 2 ∧
    (ingestRun (fun i => if i = 0 then (.resp 200 tel0, .resp 200 [])
        else (.exn, .exn)) none fmt emptySession).data.telemetry = tel0 ∧
    key ∉ (ingest st key (fun i => if i = 0 then (.resp 200 tel0, .resp 200 [])
        else (.exn, .exn)) none fmt).1.active_tasks ∧
    (ingest st key (fun i => if i = 0 then (.resp 200 tel0, .resp 200 [])
        else (.exn, .exn)) none fmt).2 = true := by
  have hA : ingestRun (fun _ => ((.resp s1 tr : FetchOut TelRec),
      (.resp s2 lr : FetchOut LocRec))) none fmt emptySession =
      ⟨emptySession, 3, 3, false,
        [(0, Kind.telemetry), (0, Kind.location), (1, Kind.telemetry),
         (1, Kind.location), (2, Kind.telemetry), (2, Kind.location)]⟩ := by
    unfold ingestRun
    rw [show max_chunks = 47 + 1 from by norm_num [max_chunks]]
    rw [ingestLoop_step_empty _ none fmt 47 0 0 emptySession s1 s2 tr lr rfl
      (statusFilter_ne s1 tr h1) (statusFilter_ne s2 lr h2), if_neg (by omega)]
    rw [show (47 : ℕ) = 46 + 1 from by norm_num]
    rw [ingestLoop_step_empty _ none fmt 46 1 1 _ s1 s2 tr lr rfl
      (statusFilter_ne s1 tr h1) (statusFilter_ne s2 lr h2), if_neg (by omega)]
    rw [show (46 : ℕ) = 45 + 1 from by norm_num]
    rw [ingestLoop_step_empty _ none fmt 45 2 2 _ s1 s2 tr lr rfl
      (statusFilter_ne s1 tr h1) (statusFilter_ne s2 lr h2), if_pos (by omega)]
    simp [bump]
  have hB : ingestRun (fun i => if i = 0 then ((.resp 200 tel0 : FetchOut TelRec),
      (.resp 200 [] : FetchOut LocRec)) else (.exn, .exn)) none fmt emptySession =
      bump 0 ⟨⟨emptySession.telemetry ++ tel0, emptySession.location ++ [],
        emptySession.weather, some (fmt 0)⟩, 1, 0, true, [(1, Kind.telemetry)]⟩ := by
    unfold ingestRun
    rw [show max_chunks = 47 + 1 from by norm_num [max_chunks]]
    rw [ingestLoop_step_data _ none fmt 47 0 0 emptySession tel0 [] rfl
      (by simp [h0]) _ (appendChunk_none (fmt 0) emptySession tel0 [])]
    rw [show (47 : ℕ) = 46 + 1 from by norm_num]
    rw [ingestLoop_step_exn_tel _ none fmt 46 1 0 _ FetchOut.exn rfl]
  have hW : (ingest st key (fun i => if i = 0 then ((.resp 200 tel0 : FetchOut TelRec),
      (.resp 200 [] : FetchOut LocRec)) else (.exn, .exn)) none fmt).1.active_tasks =
        st.active_tasks ∧
      (ingest st key (fun i => if i = 0 then ((.resp 200 tel0 : FetchOut TelRec),
        (.resp 200 [] : FetchOut LocRec)) else (.exn, .exn)) none fmt).2 = true := by
    have hb1 : ingest_begin st key =
        ({ st with active_tasks := key :: st.active_tasks }, true) := by
      unfold ingest_begin
      rw [if_neg hk]
    unfold ingest
    rw [hb1]
    dsimp only
    rw [setSession_active, get_session_data_active]
    dsimp only
    exact ⟨List.erase_cons_head .., rfl⟩
  refine ⟨hA, ?_, ?_, ?_, ?_, hW.2⟩
  · rw [hB]
    simp [bump]
  · rw [hB]
    simp [bump]
  · rw [hB]
    simp [bump, emptySession]
  · rw [hW.1]
    exact hk

/-- Witness for C2 at status codes 500/404 and a one-record window-0
source raising from window 1 on. -/
theorem fetch_failure_semantics_witness :
    ingestRun (fun _ => (.resp 500 [⟨"x"⟩], .resp 404 [])) none (fun _ => "")
        emptySession =
      ⟨emptySession, 3, 3, false,
        [(0, Kind.telemetry), (0, Kind.location), (1, Kind.telemetry),
         (1, Kind.location), (2, Kind.telemetry), (2, Kind.location)]⟩ ∧
    (ingestRun (fun i => if i = 0 then (.resp 200 [⟨"a"⟩], .resp 200 [])
        else (.exn, .exn)) none (fun _ => "") emptySession).aborted = true ∧
    (ingestRun (fun i => if i = 0 then (.resp 200 [⟨"a"⟩], .resp 200 [])
        else (.exn, .exn)) none (fun _ => "") emptySession).iters = 2 ∧
    (ingestRun (fun i => if i = 0 then (.resp 200 [⟨"a"⟩], .resp 200 [])
        else (.exn, .exn)) none (fun _ => "") emptySession).data.telemetry =
      [⟨"a"⟩] ∧
    (7 : ℕ) ∉ (ingest ⟨[], []⟩ 7 (fun i => if i = 0 then
        (.resp 200 [⟨"a"⟩], .resp 200 []) else (.exn, .exn)) none
        (fun _ => "")).1.active_tasks ∧
    (ingest ⟨[], []⟩ 7 (fun i => if i = 0 then (.resp 200 [⟨"a"⟩], .resp 200 [])
        else (.exn, .exn)) none (fun _ => "")).2 = true :=
  fetch_failure_semantics 500 404 (by norm_num) (by norm_num) [⟨"x"⟩] [] [⟨"a"⟩]
    (by simp) (fun _ => "") 7 ⟨[], []⟩ (by simp)

/-- C9 amended: every fetch call the loop issues is for the telemetry or
the location kind — weather is never fetched; no run ever writes the
buffer's weather sequence; and a window with status 200 on both kinds and
a non-empty union appends the telemetry records and the normalized
location records per kind, in arrival order, advances the cursor to the
window's end, and continues. -/
theorem fetch_kinds_and_append (source : ℕ → FetchOut TelRec × FetchOut LocRec)
    (b : Option Bounds) (fmt : ℕ → String) :
    (∀ (fuel i ec : ℕ) (d : SessionData),
        ∀ c ∈ (ingestLoop source b fmt fuel i ec d).calls,
          c.2 = Kind.telemetry ∨ c.2 = Kind.location) ∧
    (∀ (fuel i ec : ℕ) (d : SessionData),
        (ingestLoop source b fmt fuel i ec d).data.weather = d.weather) ∧
    (∀ (fuel i ec : ℕ) (d : SessionData) (tr : List TelRec) (lr nlr : List LocRec),
        source i = (.resp 200 tr, .resp 200 lr) → ¬(tr = [] ∧ lr = []) →
        lr.mapM (normalizeLocRec b) = .ok nlr →
        ingestLoop source b fmt (fuel + 1) i ec d =
          bump i (ingestLoop source b fmt fuel (i + 1) 0
            ⟨d.telemetry ++ tr, d.location ++ nlr, d.weather, some (fmt i)⟩)) := by
  refine ⟨?_, ?_, ?_⟩
  · intro fuel
    induction fuel with
    | zero =>
      intro i ec d c hc
      simp [ingestLoop] at hc
    | succ n ih =>
      intro i ec d c hc
      rcases hsrc : source i with ⟨t, l⟩
      cases t with
      | exn =>
        rw [ingestLoop_step_exn_tel source b fmt n i ec d l hsrc] at hc
        simp at hc
        simp [hc]
      | resp ts tr =>
        cases l with
        | exn =>
          rw [ingestLoop_step_exn_loc source b fmt n i ec d ts tr hsrc] at hc
          simp at hc
          rcases hc with hc | hc <;> simp [hc]
        | resp ls lr =>
          by_cases he : statusFilter ts tr = [] ∧ statusFilter ls lr = []
          · rw [ingestLoop_step_empty source b fmt n i ec d ts ls tr lr hsrc
              he.1 he.2] at hc
            by_cases h3 : 3 ≤ ec + 1
            · rw [if_pos h3] at hc
              simp at hc
              rcases hc with hc | hc <;> simp [hc]
            · rw [if_neg h3] at hc
              simp only [bump, List.mem_cons] at hc
              rcases hc with hc | hc | hc
              · simp [hc]
              · simp [hc]
              · exact ih (i + 1) (ec + 1) d c hc
          · rw [ingestLoop_step_nonempty source b fmt n i ec d ts ls tr lr
              hsrc he] at hc
            cases happ : appendChunk b (fmt i) d (statusFilter ts tr)
                (statusFilter ls lr) with
            | error e =>
              simp only [happ] at hc
              simp at hc
              rcases hc with hc | hc <;> simp [hc]
            | ok d2 =>
              simp only [happ] at hc
              simp only [bump, List.mem_cons] at hc
              rcases hc with hc | hc | hc
              · simp [hc]
              · simp [hc]
              · exact ih (i + 1) 0 d2 c hc
  · intro fuel
    induction fuel with
    | zero =>
      intro i ec d
      rfl
    | succ n ih =>
      intro i ec d
      rcases hsrc : source i with ⟨t, l⟩
      cases t with
      | exn =>
        rw [ingestLoop_step_exn_tel source b fmt n i ec d l hsrc]
      | resp ts tr =>
        cases l with
        | exn =>
          rw [ingestLoop_step_exn_loc source b fmt n i ec d ts tr hsrc]
        | resp ls lr =>
          by_cases he : statusFilter ts tr = [] ∧ statusFilter ls lr = []
          · rw [ingestLoop_step_empty source b fmt n i ec d ts ls tr lr hsrc
              he.1 he.2]
            by_cases h3 : 3 ≤ ec + 1
            · rw [if_pos h3]
            · rw [if_neg h3]
              simpa [bump] using ih (i + 1) (ec + 1) d
          · rw [ingestLoop_step_nonempty source b fmt n i ec d ts ls tr lr hsrc he]
            cases happ : appendChunk b (fmt i) d (statusFilter ts tr)
                (statusFilter ls lr) with
            | error e =>
              simp only [happ]
            | ok d2 =>
              simp only [happ]
              have hd2 := appendChunk_weather b (fmt i) d d2 (statusFilter ts tr)
                (statusFilter ls lr) happ
              simp only [bump]
              rw [ih (i + 1) 0 d2, hd2]
  · intro fuel i ec d tr lr nlr hsrc hne hmap
    refine ingestLoop_step_data source b fmt fuel i ec d tr lr hsrc hne _ ?_
    unfold appendChunk
    rw [hmap]

/-- Witness for C9: the one-telemetry-record source — every call the run
makes is telemetry or location, the weather sequence stays untouched, and
window 0's append step has the stated shape. -/
theorem fetch_kinds_and_append_witness :
    (∀ c ∈ (ingestLoop telOnlySource none (fun _ => "") 48 0 0 emptySession).calls,
        c.2 = Kind.telemetry ∨ c.2 = Kind.location) ∧
      (ingestLoop telOnlySource none (fun _ => "") 48 0 0 emptySession).data.weather =
        emptySession.weather ∧
      ingestLoop telOnlySource none (fun _ => "") (47 + 1) 0 0 emptySession =
        bump 0 (ingestLoop telOnlySource none (fun _ => "") 47 1 0
          ⟨emptySession.telemetry ++ [⟨"2024-03-01T00:01:00"⟩],
           emptySession.location ++ [], emptySession.weather, some ""⟩) := by
  have h := fetch_kinds_and_append telOnlySource none (fun _ => "")
  exact ⟨h.1 48 0 0 emptySession, h.2.1 48 0 0 emptySession,
    h.2.2 47 0 0 emptySession [⟨"2024-03-01T00:01:00"⟩] [] [] rfl (by simp) rfl⟩

/-- C7 amended: for every input the smoothing stage accepts (with the
math import supplied, see C1), `is_closed` is true iff the subsampled
normalized sequence has more than 2 points and the squared distance
between its first and last points is strictly below `CLOSE_THRESHOLD`
squared — the gap flags play no part in it; and whenever `is_closed` is
true the emitted path ends with the closing operation. -/
theorem closed_flag_characterization (norm : ℚ → ℚ → ℚ × ℚ) (locs : List Pt)
    (r : SmoothResult) (h : provisionPath true norm locs = .ok r) :
    (r.is_closed = true ↔ 2 < r.points_data.length ∧
        hypotSq ((r.points_data.getLastD pt0).x - (r.points_data.headD pt0).x)
          ((r.points_data.getLastD pt0).y - (r.points_data.headD pt0).y) <
          CLOSE_THRESHOLD * CLOSE_THRESHOLD) ∧
      (r.is_closed = true → r.path.getLast? = some PathOp.closePath) := by
  unfold provisionPath at h
  split at h
  · cases h
    exact ⟨by simp, by simp⟩
  · dsimp only at h
    cases hrp : rawPass true norm none 0
        (sliceStep locs (max 1 (locs.length / 1000))) with
    | error e =>
      rw [hrp] at h
      exact Except.noConfusion h
    | ok pdps =>
      rw [hrp] at h
      obtain ⟨pd, ps⟩ := pdps
      dsimp only at h
      by_cases hlen : 2 < pd.length
      · have hcc : closureCheck true pd = .ok (decide
            (hypotSq ((pd.getLastD pt0).x - (pd.headD pt0).x)
              ((pd.getLastD pt0).y - (pd.headD pt0).y) <
              CLOSE_THRESHOLD * CLOSE_THRESHOLD)) := by
          unfold closureCheck
          rw [if_pos hlen, if_pos rfl]
        rw [hcc] at h
        dsimp only at h
        split at h <;> cases h <;> constructor
        · simp [hlen]
        · intro hc
          dsimp only at hc ⊢
          rw [hc]
          simp
        · simp [hlen]
        · intro hc
          dsimp only at hc ⊢
          rw [hc]
          simp
      · have hcc : closureCheck true pd = .ok false := by
          unfold closureCheck
          rw [if_neg hlen]
        rw [hcc] at h
        dsimp only at h
        split at h <;> cases h <;> constructor
        · simp [hlen]
        · intro hc
          exact absurd hc (by simp)
        · simp [hlen]
        · intro hc
          exact absurd hc (by simp)

/-- Witness for C7: the three-point loop `triLoopPts` — more than 2
points, first and last within the threshold, closed, path ending in the
closing operation. -/
theorem closed_flag_characterization_witness :
    (triRes.is_closed = true ↔ 2 < triRes.points_data.length ∧
        hypotSq ((triRes.points_data.getLastD pt0).x - (triRes.points_data.headD pt0).x)
          ((triRes.points_data.getLastD pt0).y - (triRes.points_data.headD pt0).y) <
          CLOSE_THRESHOLD * CLOSE_THRESHOLD) ∧
      (triRes.is_closed = true → triRes.path.getLast? = some PathOp.closePath) :=
  closed_flag_characterization (fun x y => (x, y)) triLoopPts triRes
    (by norm_num [provisionPath, sliceStep, rawPass, closureCheck, triLoopPts,
      triRes, hypotSq, MAX_GAP, CLOSE_THRESHOLD, pt0, List.enum])

/-- C8 amended: with drivers and session info present but an empty (or
unusable) bounds sample, the bounds computation returns `None` — no
exception — and `provision_session` proceeds with `normalize_point`
degraded to the identity, returning whatever the smoothing stage produces
over the raw coordinates; nothing is surfaced to the caller and nothing
is retried. -/
theorem bounds_none_provision_proceeds (cfg : ServiceCfg) (mathOk : Bool)
    (env : ProvisionEnv) (s : String)
    (hb : boundsFromLocations cfg env.boundsLocations = none)
    (hd : env.drivers ≠ []) (hs : env.session_info = some s) :
    calculate_session_bounds cfg none
        ⟨env.drivers, env.session_info, env.boundsLocations⟩ = none ∧
      provision_session cfg mathOk env =
        (provisionPath mathOk (fun x y => (x, y)) env.sampleLocs).map
          (fun r => ⟨env.drivers, r.path, r.points_data⟩) := by
  have hc : calculate_session_bounds cfg none
      ⟨env.drivers, env.session_info, env.boundsLocations⟩ = none :=
    calculate_session_bounds_eq_none cfg _ (Or.inr (Or.inr hb))
  refine ⟨hc, ?_⟩
  unfold provision_session
  dsimp only
  rw [hc]
  rw [if_neg (by simpa [List.isEmpty_iff] using hd)]
  rw [hs]
  dsimp only
  have hc2 : calculate_session_bounds cfg none
      ⟨env.drivers, some s, env.boundsLocations⟩ = none := by
    rw [← hs]
    exact hc
  have hnorm : (fun x y => normalize_point cfg none
      ⟨env.drivers, some s, env.boundsLocations⟩ x y) =
      (fun x y : ℚ => (x, y)) := by
    funext a b
    unfold normalize_point
    rw [hc2]
  rw [hnorm]
  cases hp : provisionPath mathOk (fun x y : ℚ => (x, y)) env.sampleLocs <;>
    simp [hp, Except.map]

/-- Witness for C8 at `env8`: one driver, session info present, empty
bounds sample, one-point geo sample. -/
theorem bounds_none_provision_proceeds_witness :
    calculate_session_bounds defaultCfg none
        ⟨env8.drivers, env8.session_info, env8.boundsLocations⟩ = none ∧
      provision_session defaultCfg openf1MathImported env8 =
        (provisionPath openf1MathImported (fun x y => (x, y)) env8.sampleLocs).map
          (fun r => ⟨env8.drivers, r.path, r.points_data⟩) :=
  bounds_none_provision_proceeds defaultCfg openf1MathImported env8
    "2024-03-01T00:00:00" rfl (by simp [env8]) rfl

end F1
